import Mathlib

/-!
Shallow embedding of `bin/user/vitalstats.py` (weewx vital-stats data
service, version 2.0) and proofs about it.

Modelling conventions:
* Python floats are modelled as rationals `ℚ`.
* The live operating-system state read by `psutil` / `os` is an explicit
  `SysState` argument threaded through each zero-argument stat function.
* A Python exception is an `Except VsError` result; a `dict` lookup that
  can raise `KeyError` becomes a `match` on an `Option`.
* A weewx packet/record is a structure with its `usUnits` field and a
  string-keyed map of observation values; mutation is explicit state
  passing.  An exception escaping `augment_packet` returns the packet as
  mutated so far together with the error, mirroring Python semantics.
-/

namespace VitalStats

/-- weewx unit-system codes (weewx.US, weewx.METRIC, weewx.METRICWX). -/
def US : Nat := 1

/-- weewx metric unit-system code. -/
def METRIC : Nat := 16

/-- weewx metricwx unit-system code. -/
def METRICWX : Nat := 17

/-- Errors an evaluation can raise: `KeyError` on the `STATS` dict is an
unknown metric; a missing sensor dict entry or empty reading list
(`KeyError`/`IndexError` inside `cpu_temp`) is an unavailable sensor. -/
inductive VsError where
  | unknownMetric (name : String)
  | sensorUnavailable
deriving DecidableEq, Repr

/-- One entry of `psutil.sensors_temperatures()`: the shwtemp tuple
(label, current, high, critical); index 1 is the current reading. -/
structure SensorReading where
  label : String
  current : ℚ
  high : ℚ
  critical : ℚ

/-- `psutil.cpu_times()` fields used by the code: index 0 is user,
index 1 is nice, index 2 is system, index 3 is idle. -/
structure CpuTimes where
  user : ℚ
  nice : ℚ
  sys : ℚ
  idle : ℚ

/-- `psutil.virtual_memory()` svmem tuple; index 1 is available. -/
structure VirtualMemory where
  total : ℚ
  available : ℚ
  percent : ℚ
  used : ℚ
  free : ℚ

/-- `psutil.disk_usage(path)` sdiskusage tuple; index 2 is free. -/
structure DiskUsage where
  total : ℚ
  used : ℚ
  free : ℚ
  percent : ℚ

/-- The operating-system state read by the five stat functions.
`loadavg` is the `os.getloadavg()` triple (1, 5 and 15 minutes);
`cpuCount` is `psutil.cpu_count()` (read by no current stat function);
`sensors` is the `psutil.sensors_temperatures()` dict;
`diskUsage` maps a mount path to its usage tuple. -/
structure SysState where
  loadavg : ℚ × ℚ × ℚ
  cpuCount : Nat
  cpuTimes : CpuTimes
  sensors : String → Option (List SensorReading)
  virtualMemory : VirtualMemory
  diskUsage : String → DiskUsage

/-- `cpu_load_5m`: `os.getloadavg()[1]`, the 5-minute load average.
The division by `psutil.cpu_count()` is commented out in the source. -/
def cpu_load_5m (st : SysState) : Except VsError ℚ :=
  Except.ok st.loadavg.2.1

/-- `cpu_temp`: `psutil.sensors_temperatures()['cpu_thermal'][0][1]`.
A missing dict key or an empty reading list raises. -/
def cpu_temp (st : SysState) : Except VsError ℚ :=
  match st.sensors "cpu_thermal" with
  | none => Except.error VsError.sensorUnavailable
  | some [] => Except.error VsError.sensorUnavailable
  | some (r :: _) => Except.ok r.current

/-- `cpu_idle`: `ratios[3]/(ratios[0] + ratios[2] + ratios[3])*100.0`
where `ratios = psutil.cpu_times()`. -/
def cpu_idle (st : SysState) : Except VsError ℚ :=
  Except.ok (st.cpuTimes.idle /
    (st.cpuTimes.user + st.cpuTimes.sys + st.cpuTimes.idle) * 100)

/-- `mem_avail`: `psutil.virtual_memory()[1]`, available bytes. -/
def mem_avail (st : SysState) : Except VsError ℚ :=
  Except.ok st.virtualMemory.available

/-- `disk_avail`: `psutil.disk_usage('/')[2]`, free bytes on root. -/
def disk_avail (st : SysState) : Except VsError ℚ :=
  Except.ok (st.diskUsage "/").free

/-- The `Algorithm` dataclass: how to calculate a stat. -/
structure Algorithm where
  get_stat : SysState → Except VsError ℚ
  output_unit : String
  output_group : String

/-- `VitalStatsSvc.DEF_BINDINGS`. -/
def DEF_BINDINGS : List String := ["archive"]

/-- `VitalStatsSvc.STATS`: the registry, as an ordered association list
(Python dicts preserve insertion order, which is the iteration order of
the `for obs_type in VitalStatsSvc.STATS` loop). -/
def STATS : List (String × Algorithm) :=
  [("cpu_load", ⟨cpu_load_5m, "count", "group_count"⟩),
   ("cpu_idle", ⟨cpu_idle, "percent", "group_percent"⟩),
   ("cpu_temp", ⟨cpu_temp, "degree_C", "group_temperature"⟩),
   ("mem_avail", ⟨mem_avail, "byte", "group_data"⟩),
   ("disk_avail", ⟨disk_avail, "byte", "group_data"⟩)]

/-- The registry keys in iteration order. -/
def STATS_KEYS : List String := STATS.map Prod.fst

/-- `VitalStatsSvc.STATS[obs_type]`: a dict subscript that raises
`KeyError` (an unknown metric) when the name is absent. -/
def lookupStat (name : String) : Except VsError Algorithm :=
  match STATS.lookup name with
  | none => Except.error (VsError.unknownMetric name)
  | some alg => Except.ok alg

/-- `weewx.units.ValueTuple`: (value, unit, unit group).  The value slot
is optional because weewx uses `None` for an absent value. -/
structure ValueTuple where
  value : Option ℚ
  unit : String
  group : String

/-- The standard unit a weewx unit system designates for a unit group,
restricted to the groups and systems this module touches: temperature is
degree_F in the US system and degree_C otherwise; count, percent and
byte are unit-system-invariant. -/
def stdUnit (targetSystem : Nat) (group : String) : String :=
  if group = "group_temperature" then
    if targetSystem = US then "degree_F" else "degree_C"
  else if group = "group_count" then "count"
  else if group = "group_percent" then "percent"
  else if group = "group_data" then "byte"
  else group

/-- weewx unit conversion between two concrete units (identity when they
coincide; Celsius/Fahrenheit otherwise for the units used here). -/
def convertValue (fromUnit toUnit : String) (v : ℚ) : ℚ :=
  if fromUnit = toUnit then v
  else if fromUnit = "degree_C" ∧ toUnit = "degree_F" then v * 9 / 5 + 32
  else if fromUnit = "degree_F" ∧ toUnit = "degree_C" then (v - 32) * 5 / 9
  else v

/-- `weewx.units.convertStd(vt, target)`: convert a ValueTuple to the
target unit system's standard unit for its group; a `None` value stays
`None`. -/
def convertStd (vt : ValueTuple) (targetSystem : Nat) : ValueTuple :=
  ⟨vt.value.map (convertValue vt.unit (stdUnit targetSystem vt.group)),
   stdUnit targetSystem vt.group, vt.group⟩

/-- A weewx LOOP packet or ARCHIVE record: its `usUnits` field plus a
string-keyed map of observation values. -/
structure Packet where
  usUnits : Nat
  data : String → Option ℚ

/-- The tail of the `augment_packet` loop body:
`if pkt_vt[0] is not None: packet[obs_type] = pkt_vt[0]`. -/
def insertIfPresent (pkt : Packet) (obs_type : String) (pkt_vt : ValueTuple) :
    Packet :=
  match pkt_vt.value with
  | some v =>
      { pkt with data := fun k => if k = obs_type then some v else pkt.data k }
  | none => pkt

/-- `VitalStatsSvc.augment_packet(packet, stats)`.  Each listed stat is
looked up, evaluated, converted to the packet's unit system and inserted
when present.  There is no exception handler in the source, so a raised
error stops the loop: the result carries the packet as mutated so far
and the escaping error. -/
def augment_packet (st : SysState) : Packet → List String →
    Packet × Option VsError
  | pkt, [] => (pkt, none)
  | pkt, obs_type :: rest =>
    match lookupStat obs_type with
    | Except.error e => (pkt, some e)
    | Except.ok alg =>
      match alg.get_stat st with
      | Except.error e => (pkt, some e)
      | Except.ok raw_value =>
        let output_vt : ValueTuple :=
          ⟨some raw_value, alg.output_unit, alg.output_group⟩
        let pkt_vt := convertStd output_vt pkt.usUnits
        augment_packet st (insertIfPresent pkt obs_type pkt_vt) rest

/-- A value of the `[VitalStats]` configuration stanza: configobj hands
the service either a single string or a list of strings. -/
inductive ConfigVal where
  | str (s : String)
  | list (l : List String)

/-- Python `str.split(sep)` helper: accumulate the current field until
the separator.  `"".split(',')` gives `['']`, as in Python. -/
def pySplitAux (sep : Char) : List Char → List Char → List String
  | [], acc => [String.mk acc.reverse]
  | c :: cs, acc =>
    if c = sep then String.mk acc.reverse :: pySplitAux sep cs []
    else pySplitAux sep cs (c :: acc)

/-- Python `s.split(sep)` for a one-character separator. -/
def pySplit (sep : Char) (s : String) : List String := pySplitAux sep s.data []

/-- Python `s.strip()`: drop whitespace from both ends. -/
def pyStrip (s : String) : String :=
  String.mk
    (((s.data.dropWhile Char.isWhitespace).reverse.dropWhile
        Char.isWhitespace).reverse)

/-- Python `s.lower()`. -/
def pyLower (s : String) : String := String.mk (s.data.map Char.toLower)

/-- The normalisation applied to a configured binding value: a string is
split on commas (`bindings.split(',')`), then every label is
whitespace-stripped and lowercased (`b.strip().lower()`). -/
def normalizeBindings : ConfigVal → List String
  | ConfigVal.str s => (pySplit ',' s).map (fun b => pyLower (pyStrip b))
  | ConfigVal.list l => l.map (fun b => pyLower (pyStrip b))

/-- The bindings the `__init__` loop determines for one known obs_type:
the normalised configured value when the stanza mentions it, otherwise
`DEF_BINDINGS`. -/
def metricBindings (svc_sect : String → Option ConfigVal)
    (obs_type : String) : List String :=
  match svc_sect obs_type with
  | some v => normalizeBindings v
  | none => DEF_BINDINGS

/-- The two lists built by the `__init__` loop over the registry:
`loop_stats` collects, in registry iteration order, every obs_type whose
bindings contain "loop"; `archive_stats` likewise for "archive". -/
def initStats (svc_sect : String → Option ConfigVal) :
    List String × List String :=
  (STATS_KEYS.filter (fun obs => (metricBindings svc_sect obs).contains "loop"),
   STATS_KEYS.filter
     (fun obs => (metricBindings svc_sect obs).contains "archive"))

/-- The service state after `__init__`: the two stat lists, which events
the service bound handlers to, and whether it logged the no-work
warning. -/
structure SvcState where
  loop_stats : List String
  archive_stats : List String
  boundLoop : Bool
  boundArchive : Bool
  warnedNoWork : Bool

/-- `VitalStatsSvc.__init__` after the binding loop: if both lists are
empty it warns and returns without binding; otherwise it binds
NEW_LOOP_PACKET when `loop_stats` is nonempty and NEW_ARCHIVE_RECORD
when `archive_stats` is nonempty. -/
def initSvc (svc_sect : String → Option ConfigVal) : SvcState :=
  if (initStats svc_sect).1.length ≤ 0 ∧ (initStats svc_sect).2.length ≤ 0 then
    ⟨(initStats svc_sect).1, (initStats svc_sect).2, false, false, true⟩
  else
    ⟨(initStats svc_sect).1, (initStats svc_sect).2,
     decide (0 < (initStats svc_sect).1.length),
     decide (0 < (initStats svc_sect).2.length), false⟩

/-- `VitalStatsSvc.new_loop_packet`: augment the packet with the loop
stats.  The handler assigns no field of `self`, which the explicit state
passing records by returning `svc` unchanged. -/
def new_loop_packet (svc : SvcState) (st : SysState) (pkt : Packet) :
    SvcState × Packet × Option VsError :=
  (svc, augment_packet st pkt svc.loop_stats)

/-- `VitalStatsSvc.new_archive_record`: augment the record with the
archive stats, `self` unchanged. -/
def new_archive_record (svc : SvcState) (st : SysState) (rec : Packet) :
    SvcState × Packet × Option VsError :=
  (svc, augment_packet st rec svc.archive_stats)

/-- Event delivery: a NEW_LOOP_PACKET event reaches the handler only if
the service bound it. -/
def deliverLoop (svc : SvcState) (st : SysState) (pkt : Packet) :
    Packet × Option VsError :=
  if svc.boundLoop then (new_loop_packet svc st pkt).2 else (pkt, none)

/-- Event delivery for NEW_ARCHIVE_RECORD. -/
def deliverArchive (svc : SvcState) (st : SysState) (rec : Packet) :
    Packet × Option VsError :=
  if svc.boundArchive then (new_archive_record svc st rec).2 else (rec, none)

/-- `VitalStatsSvc.shutDown`: `self.loop_stats = self.archive_stats = []`. -/
def shutDown (svc : SvcState) : SvcState :=
  { svc with loop_stats := [], archive_stats := [] }

/-- A concrete OS state whose thermal-sensor dict is empty (no
`cpu_thermal` entry), as on a host without that sensor; the other
counters are healthy. -/
def brokenState : SysState :=
  { loadavg := (1/2, 1/4, 1/8), cpuCount := 4,
    cpuTimes := ⟨30, 5, 10, 60⟩,
    sensors := fun _ => none,
    virtualMemory := ⟨1000, 600, 40, 300, 100⟩,
    diskUsage := fun _ => ⟨5000, 2000, 3000, 40⟩ }

/-- An empty metric packet in the METRIC unit system. -/
def pkt0 : Packet := ⟨METRIC, fun _ => none⟩

/-- The example configuration stanza from the spec:
`cpu_load = "loop, archive"`, `cpu_temp = "archive"`, `mem_avail = ""`. -/
def exCfg : String → Option ConfigVal := fun n =>
  if n = "cpu_load" then some (ConfigVal.str "loop, archive")
  else if n = "cpu_temp" then some (ConfigVal.str "archive")
  else if n = "mem_avail" then some (ConfigVal.str "") else none

/-- A configuration binding every metric to no context at all. -/
def allEmptyCfg : String → Option ConfigVal :=
  fun _ => some (ConfigVal.str "")

/-- A ValueTuple holding an absent value. -/
def noneVt : ValueTuple := ⟨none, "degree_C", "group_temperature"⟩

/-- Looking up a key that heads no pair of an association list yields
`none`. -/
theorem lookup_eq_none_of_not_mem {β : Type} (l : List (String × β))
    (k : String) (h : k ∉ l.map Prod.fst) : l.lookup k = none := by
  induction l with
  | nil => rfl
  | cons p es ih =>
    obtain ⟨k1, b1⟩ := p
    simp only [List.map_cons, List.mem_cons, not_or] at h
    rw [List.lookup_cons]
    have hbeq : (k == k1) = false := by
      simpa using h.1
    rw [hbeq]
    exact ih h.2

/-- On an association list with pairwise-distinct keys, lookup returns
the unique value paired with the key. -/
theorem lookup_eq_some_of_mem {β : Type} (l : List (String × β))
    (k : String) (b : β) (hnd : (l.map Prod.fst).Nodup)
    (hmem : (k, b) ∈ l) : l.lookup k = some b := by
  induction l with
  | nil => cases hmem
  | cons p es ih =>
    obtain ⟨k1, b1⟩ := p
    simp only [List.map_cons, List.nodup_cons] at hnd
    rw [List.lookup_cons]
    rcases List.mem_cons.mp hmem with heq | hmem2
    · cases heq
      simp
    · have hkmem : k ∈ es.map Prod.fst := List.mem_map_of_mem Prod.fst hmem2
      have hk : k ≠ k1 := by
        intro e
        exact hnd.1 (e ▸ hkmem)
      have hbeq : (k == k1) = false := by simpa using hk
      rw [hbeq]
      exact ih hnd.2 hmem2

/-- `insertIfPresent` never touches the unit-system field. -/
theorem insertIfPresent_usUnits (pkt : Packet) (obs : String)
    (vt : ValueTuple) : (insertIfPresent pkt obs vt).usUnits = pkt.usUnits := by
  cases hv : vt.value <;> simp [insertIfPresent, hv]

/-- `insertIfPresent` leaves every key other than the inserted one
unchanged. -/
theorem insertIfPresent_data_ne (pkt : Packet) (obs : String)
    (vt : ValueTuple) (k : String) (h : k ≠ obs) :
    (insertIfPresent pkt obs vt).data k = pkt.data k := by
  cases hv : vt.value <;> simp [insertIfPresent, hv, h]

/-- Frame property of the augmentation loop: the unit-system field is
never written, and a key outside the stats list is never written. -/
theorem augment_frame_aux (st : SysState) :
    ∀ (stats : List String) (pkt : Packet),
    (augment_packet st pkt stats).1.usUnits = pkt.usUnits ∧
    ∀ k, k ∉ stats → (augment_packet st pkt stats).1.data k = pkt.data k := by
  intro stats
  induction stats with
  | nil => exact fun pkt => ⟨rfl, fun _ _ => rfl⟩
  | cons obs rest ih =>
    intro pkt
    cases hl : lookupStat obs with
    | error e =>
      simp [augment_packet, hl]
    | ok alg =>
      cases hg : alg.get_stat st with
      | error e =>
        simp [augment_packet, hl, hg]
      | ok raw =>
        simp only [augment_packet, hl, hg]
        obtain ⟨ihu, ihd⟩ := ih (insertIfPresent pkt obs
          (convertStd ⟨some raw, alg.output_unit, alg.output_group⟩
            pkt.usUnits))
        constructor
        · rw [ihu, insertIfPresent_usUnits]
        · intro k hk
          have hk1 : k ≠ obs := fun e => hk (e ▸ List.mem_cons_self obs rest)
          have hk2 : k ∉ rest := fun e => hk (List.mem_cons_of_mem _ e)
          rw [ihd k hk2, insertIfPresent_data_ne _ _ _ _ hk1]

/-- Both branches of `__init__` store the computed loop list. -/
theorem initSvc_loop_stats (cfg : String → Option ConfigVal) :
    (initSvc cfg).loop_stats = (initStats cfg).1 := by
  unfold initSvc
  split <;> rfl

/-- Both branches of `__init__` store the computed archive list. -/
theorem initSvc_archive_stats (cfg : String → Option ConfigVal) :
    (initSvc cfg).archive_stats = (initStats cfg).2 := by
  unfold initSvc
  split <;> rfl

/-- Bool membership test agrees with list membership for strings. -/
theorem contains_iff_mem {l : List String} {a : String} :
    l.contains a = true ↔ a ∈ l := by
  simp [List.contains, List.elem_iff]

/-- Claim C1 (counterexample): the claim that a SensorUnavailable
failure of one metric is caught so that the remaining metrics of the
batch are still evaluated and inserted is false.  On a host without the
`cpu_thermal` sensor, augmenting with the batch `[cpu_temp, mem_avail]`
leaves `mem_avail` absent from the packet and lets the error escape,
although evaluating `mem_avail` alone would have inserted 600. -/
theorem vs_failing_metric_blocks_rest_cex :
    cpu_temp brokenState = Except.error VsError.sensorUnavailable ∧
    (augment_packet brokenState pkt0 ["cpu_temp", "mem_avail"]).1.data
      "mem_avail" = none ∧
    (augment_packet brokenState pkt0 ["cpu_temp", "mem_avail"]).2 =
      some VsError.sensorUnavailable ∧
    (augment_packet brokenState pkt0 ["mem_avail"]).1.data "mem_avail" =
      some 600 := by
  refine ⟨rfl, ?_, rfl, ?_⟩ <;> decide

/-- Claim C1 (amended): `augment_packet` has no exception handler, so
when the evaluate function of a metric fails, the failure propagates
out of the batch at once: the record keeps exactly the values inserted
before the failing metric and the metrics after it are not evaluated. -/
theorem vs_failing_metric_aborts_batch (st : SysState) (pkt : Packet)
    (obs : String) (rest : List String) (alg : Algorithm) (e : VsError)
    (h1 : lookupStat obs = Except.ok alg)
    (h2 : alg.get_stat st = Except.error e) :
    augment_packet st pkt (obs :: rest) = (pkt, some e) := by
  simp [augment_packet, h1, h2]

/-- Witness for the amended C1 at the concrete failing input. -/
theorem vs_failing_metric_aborts_batch_witness :
    augment_packet brokenState pkt0 ["cpu_temp", "mem_avail"] =
      (pkt0, some VsError.sensorUnavailable) :=
  vs_failing_metric_aborts_batch brokenState pkt0 "cpu_temp" ["mem_avail"]
    ⟨cpu_temp, "degree_C", "group_temperature"⟩ VsError.sensorUnavailable
    rfl rfl

/-- Claim C2: when unit conversion yields an absent value the insertion
step leaves the record untouched, so no key is created; conversely a
key changes only when the converted value is present, the changed key is
the metric's own name, and it now holds that present value. -/
theorem vs_absent_value_not_inserted (pkt : Packet) (obs : String)
    (vt : ValueTuple) :
    ((convertStd vt pkt.usUnits).value = none →
      insertIfPresent pkt obs (convertStd vt pkt.usUnits) = pkt) ∧
    (∀ k, (insertIfPresent pkt obs (convertStd vt pkt.usUnits)).data k ≠
        pkt.data k →
      ∃ v, (convertStd vt pkt.usUnits).value = some v ∧ k = obs ∧
        (insertIfPresent pkt obs (convertStd vt pkt.usUnits)).data k =
          some v) := by
  constructor
  · intro h
    simp [insertIfPresent, h]
  · intro k hk
    cases hv : (convertStd vt pkt.usUnits).value with
    | none =>
      exact absurd (by simp [insertIfPresent, hv]) hk
    | some v =>
      by_cases hko : k = obs
      · subst hko
        exact ⟨v, rfl, rfl, by simp [insertIfPresent, hv]⟩
      · exact absurd (by simp [insertIfPresent, hv, hko]) hk

/-- Witness for C2: converting an absent temperature creates no key. -/
theorem vs_absent_value_not_inserted_witness :
    insertIfPresent pkt0 "cpu_temp" (convertStd noneVt pkt0.usUnits) =
      pkt0 :=
  (vs_absent_value_not_inserted pkt0 "cpu_temp" noneVt).1 rfl

/-- Claim C3: a registered metric absent from the configuration stanza
gets exactly the default bindings `["archive"]`: it lands in the
archive list and not in the loop list. -/
theorem vs_default_binding_archive_only (cfg : String → Option ConfigVal)
    (obs : String) (h1 : cfg obs = none) (h2 : obs ∈ STATS_KEYS) :
    metricBindings cfg obs = ["archive"] ∧
    obs ∈ (initStats cfg).2 ∧ obs ∉ (initStats cfg).1 := by
  have hb : metricBindings cfg obs = ["archive"] := by
    simp [metricBindings, h1, DEF_BINDINGS]
  refine ⟨hb, ?_, ?_⟩
  · rw [initStats, List.mem_filter]
    exact ⟨h2, by rw [hb]; rfl⟩
  · intro hmem
    rw [initStats, List.mem_filter, hb] at hmem
    exact absurd hmem.2 (by decide)

/-- Witness for C3 with an empty configuration and `mem_avail`. -/
theorem vs_default_binding_archive_only_witness :
    metricBindings (fun _ => none) "mem_avail" = ["archive"] ∧
    "mem_avail" ∈ (initStats (fun _ => none)).2 ∧
    "mem_avail" ∉ (initStats (fun _ => none)).1 :=
  vs_default_binding_archive_only (fun _ => none) "mem_avail" rfl
    (by decide)

/-- Claim C4: a configured value in string form is normalised exactly
like its comma-split list form; a configured registered metric is in the
loop list iff a normalised label is "loop" and in the archive list iff
one is "archive"; and on the spec's example stanza, cpu_load lands in
both lists, cpu_temp only in the archive list, mem_avail in neither. -/
theorem vs_binding_normalization :
    (∀ s, normalizeBindings (ConfigVal.str s) =
      normalizeBindings (ConfigVal.list (pySplit ',' s))) ∧
    (∀ cfg obs v, cfg obs = some v →
      (obs ∈ (initStats cfg).1 ↔
        obs ∈ STATS_KEYS ∧ "loop" ∈ normalizeBindings v) ∧
      (obs ∈ (initStats cfg).2 ↔
        obs ∈ STATS_KEYS ∧ "archive" ∈ normalizeBindings v)) ∧
    ("cpu_load" ∈ (initStats exCfg).1 ∧ "cpu_load" ∈ (initStats exCfg).2 ∧
     "cpu_temp" ∉ (initStats exCfg).1 ∧ "cpu_temp" ∈ (initStats exCfg).2 ∧
     "mem_avail" ∉ (initStats exCfg).1 ∧
     "mem_avail" ∉ (initStats exCfg).2) := by
  refine ⟨fun s => rfl, ?_, ?_⟩
  · intro cfg obs v h
    have hb : metricBindings cfg obs = normalizeBindings v := by
      simp [metricBindings, h]
    constructor
    · rw [initStats, List.mem_filter, hb, contains_iff_mem]
    · rw [initStats, List.mem_filter, hb, contains_iff_mem]
  · refine ⟨by decide, by decide, by decide, by decide, by decide,
      by decide⟩

/-- Witness for C4 at the example stanza's cpu_temp entry. -/
theorem vs_binding_normalization_witness :
    "cpu_temp" ∈ (initStats exCfg).2 ↔ "cpu_temp" ∈ STATS_KEYS ∧
      "archive" ∈ normalizeBindings (ConfigVal.str "archive") :=
  (vs_binding_normalization.2.1 exCfg "cpu_temp"
    (ConfigVal.str "archive") rfl).2

/-- Claim C5: when both derived binding lists are empty, startup logs
the no-work warning and binds neither event handler, and thereafter no
arriving packet or record is ever mutated. -/
theorem vs_no_bindings_inactive (cfg : String → Option ConfigVal)
    (h1 : (initStats cfg).1 = []) (h2 : (initStats cfg).2 = []) :
    (initSvc cfg).boundLoop = false ∧
    (initSvc cfg).boundArchive = false ∧
    (initSvc cfg).warnedNoWork = true ∧
    ∀ st pkt, deliverLoop (initSvc cfg) st pkt = (pkt, none) ∧
      deliverArchive (initSvc cfg) st pkt = (pkt, none) ∧
      augment_packet st pkt (initSvc cfg).loop_stats = (pkt, none) ∧
      augment_packet st pkt (initSvc cfg).archive_stats = (pkt, none) := by
  have hs : initSvc cfg = ⟨[], [], false, false, true⟩ := by
    simp [initSvc, h1, h2]
  rw [hs]
  exact ⟨rfl, rfl, rfl, fun st pkt => ⟨rfl, rfl, rfl, rfl⟩⟩

/-- Witness for C5: every metric bound to the empty string. -/
theorem vs_no_bindings_inactive_witness :
    (initSvc allEmptyCfg).boundLoop = false ∧
    (initSvc allEmptyCfg).warnedNoWork = true ∧
    deliverLoop (initSvc allEmptyCfg) brokenState pkt0 = (pkt0, none) ∧
    deliverArchive (initSvc allEmptyCfg) brokenState pkt0 =
      (pkt0, none) :=
  ⟨(vs_no_bindings_inactive allEmptyCfg (by decide) (by decide)).1,
   (vs_no_bindings_inactive allEmptyCfg (by decide) (by decide)).2.2.1,
   ((vs_no_bindings_inactive allEmptyCfg (by decide) (by decide)).2.2.2
     brokenState pkt0).1,
   ((vs_no_bindings_inactive allEmptyCfg (by decide) (by decide)).2.2.2
     brokenState pkt0).2.1⟩

/-- Claim C6: with user time u, system time s and idle time i from the
CPU time counters, cpu_idle returns i / (i + s + u) * 100 — idle as a
percentage with nice time excluded from the denominator. -/
theorem vs_cpu_idle_formula (st : SysState)
    (h : 0 < st.cpuTimes.idle + st.cpuTimes.sys + st.cpuTimes.user) :
    cpu_idle st = Except.ok (st.cpuTimes.idle /
      (st.cpuTimes.idle + st.cpuTimes.sys + st.cpuTimes.user) * 100) := by
  have e : st.cpuTimes.user + st.cpuTimes.sys + st.cpuTimes.idle =
      st.cpuTimes.idle + st.cpuTimes.sys + st.cpuTimes.user := by ring
  rw [cpu_idle, e]

/-- Witness for C6 on concrete counters u = 30, s = 10, i = 60. -/
theorem vs_cpu_idle_formula_witness :
    cpu_idle brokenState = Except.ok (60 / (60 + 10 + 30) * 100) :=
  vs_cpu_idle_formula brokenState (by norm_num [brokenState])

/-- Claim C7: cpu_load evaluates to the 5-minute load average, the
second element of the load-average triple, and its result does not
depend on the CPU count (no per-cpu normalisation). -/
theorem vs_cpu_load_unnormalized (st : SysState) :
    cpu_load_5m st = Except.ok st.loadavg.2.1 ∧
    ∀ n, cpu_load_5m { st with cpuCount := n } = cpu_load_5m st :=
  ⟨rfl, fun _ => rfl⟩

/-- Claim C8: looking up a name outside the five registered metric
names fails with the unknown-metric error; looking up a registered name
succeeds and yields the unique definition registered under it. -/
theorem vs_lookup_registry (name : String) :
    (name ∉ STATS_KEYS →
      lookupStat name = Except.error (VsError.unknownMetric name)) ∧
    (name ∈ STATS_KEYS → ∃ alg, lookupStat name = Except.ok alg ∧
      (name, alg) ∈ STATS ∧ ∀ b, (name, b) ∈ STATS → b = alg) := by
  constructor
  · intro h
    have hn : STATS.lookup name = none :=
      lookup_eq_none_of_not_mem STATS name h
    simp [lookupStat, hn]
  · intro h
    obtain ⟨⟨n, alg⟩, hmem, hfst⟩ :=
      List.mem_map.mp (show name ∈ STATS.map Prod.fst from h)
    dsimp at hfst
    subst hfst
    have hnd : (STATS.map Prod.fst).Nodup := by decide
    refine ⟨alg, ?_, hmem, ?_⟩
    · simp [lookupStat, lookup_eq_some_of_mem STATS n alg hnd hmem]
    · intro b hb
      have hA := lookup_eq_some_of_mem STATS n alg hnd hmem
      have hB := lookup_eq_some_of_mem STATS n b hnd hb
      rw [hA] at hB
      exact (Option.some.inj hB).symm

/-- Witness for C8: an unknown name fails, a known name succeeds. -/
theorem vs_lookup_registry_witness :
    lookupStat "not_a_real_metric" =
      Except.error (VsError.unknownMetric "not_a_real_metric") ∧
    ∃ alg, lookupStat "cpu_load" = Except.ok alg ∧
      ("cpu_load", alg) ∈ STATS ∧
      ∀ b, ("cpu_load", b) ∈ STATS → b = alg :=
  ⟨(vs_lookup_registry "not_a_real_metric").1 (by decide),
   (vs_lookup_registry "cpu_load").2 (by decide)⟩

/-- Claim C9: for every configuration, the computed loop and archive
lists are sublists of the registry keys in registry iteration order —
hence contain only registry keys, each at most once — and after
shutDown both lists are empty. -/
theorem vs_stats_lists_invariant (cfg : String → Option ConfigVal) :
    (initSvc cfg).loop_stats.Sublist STATS_KEYS ∧
    (initSvc cfg).archive_stats.Sublist STATS_KEYS ∧
    (∀ x ∈ (initSvc cfg).loop_stats, x ∈ STATS_KEYS) ∧
    (∀ x ∈ (initSvc cfg).archive_stats, x ∈ STATS_KEYS) ∧
    (initSvc cfg).loop_stats.Nodup ∧
    (initSvc cfg).archive_stats.Nodup ∧
    (shutDown (initSvc cfg)).loop_stats = [] ∧
    (shutDown (initSvc cfg)).archive_stats = [] := by
  have hl := initSvc_loop_stats cfg
  have ha := initSvc_archive_stats cfg
  have hknd : STATS_KEYS.Nodup := by decide
  have sl : (initStats cfg).1.Sublist STATS_KEYS := List.filter_sublist _
  have sa : (initStats cfg).2.Sublist STATS_KEYS := List.filter_sublist _
  rw [hl, ha]
  exact ⟨sl, sa, fun x hx => sl.subset hx, fun x hx => sa.subset hx,
    sl.nodup hknd, sa.nodup hknd, rfl, rfl⟩

/-- Claim C10: augmenting writes neither the unit-system field nor any
key outside the given stats list, and the handlers leave every field of
the service's own state unchanged. -/
theorem vs_augment_frame (st : SysState) (pkt : Packet)
    (stats : List String) :
    ((augment_packet st pkt stats).1.usUnits = pkt.usUnits) ∧
    (∀ k, k ∉ stats →
      (augment_packet st pkt stats).1.data k = pkt.data k) ∧
    (∀ svc, (new_loop_packet svc st pkt).1 = svc ∧
      (new_archive_record svc st pkt).1 = svc) :=
  ⟨(augment_frame_aux st stats pkt).1,
   (augment_frame_aux st stats pkt).2,
   fun svc => ⟨rfl, rfl⟩⟩

/-- Witness for C10: a key outside the batch stays untouched. -/
theorem vs_augment_frame_witness :
    (augment_packet brokenState pkt0 ["mem_avail"]).1.data "cpu_temp" =
      pkt0.data "cpu_temp" :=
  (vs_augment_frame brokenState pkt0 ["mem_avail"]).2.1 "cpu_temp"
    (by decide)

end VitalStats
